import Mathlib

/-!
Shallow embedding of the claircore AWS updater (src/aws/updater.go), the
updater driver contract (src/libvuln/driver/updater.go) and the distributed
lock contract (src/pkg/distlock/locker.go), with theorems settling the
specification claims about them.

Network effects (the HTTP client, repomd retrieval, the updates download and
the mirrorlist resolution) are modelled by an explicit `NetWorld` record that
supplies the result of each external call; the Go functions are translated
over that world.
-/

namespace Claircore

/-- driver.Fingerprint: identifying information about a vulnerability
database (src/libvuln/driver/updater.go). An opaque string. -/
abbrev Fingerprint := String

/-- The release selector of the AWS updater (type Release in the aws package;
a string such as "1" or "2"). -/
abbrev Release := String

/-- Opaque identity standing for the bytes readable from the io.ReadCloser
returned by client.Updates. -/
abbrev Content := String

/-- Opaque identity for an *http.Client handed to Configure. -/
structure HttpClient where
  id : Nat
deriving DecidableEq, Repr

/-- A parsed net/url URL; we keep the raw string. -/
structure URL where
  raw : String
deriving DecidableEq, Repr

/-- Models stdlib net/url.Parse: fails on a string containing an ASCII
control character, succeeds otherwise (the only failure mode the updater's
mirror strings can hit). -/
def urlParse (s : String) : Option URL :=
  if s.data.any (fun ch => ch.toNat < 32) then none else some ⟨s⟩

/-- aws.Client as used by updater.go: the bound *http.Client (none for a
per-call client created by NewClient) and the resolved mirrors. -/
structure Client where
  c : Option HttpClient
  mirrors : List URL
deriving DecidableEq, Repr

/-- aws.Updater (src/aws/updater.go lines 23-36): the release selector, the
per-network-call Timeout, the optional explicit mirror list, and the client
bound by Configure (none until Configure runs). Timeout is in seconds. -/
structure Updater where
  release : Release
  Timeout : Nat
  Mirrors : List String
  client : Option Client
deriving DecidableEq, Repr

/-- Modelled from the spec: defaultOpTimeout is declared elsewhere in the aws
package (not under src/); the struct comment in src/aws/updater.go and §4.1
of the spec fix it at 15 seconds. -/
def defaultOpTimeout : Nat := 15

/-- NewUpdater (src/aws/updater.go lines 38-43): always returns an updater
with the given release and the default timeout, and a nil error. -/
def NewUpdater (release : Release) : Except String Updater :=
  .ok { release := release, Timeout := defaultOpTimeout, Mirrors := [], client := none }

/-- Updater.Name (src/aws/updater.go lines 45-47):
fmt.Sprintf("aws-%v-updater", u.release). -/
def Updater.Name (u : Updater) : String :=
  "aws-" ++ u.release ++ "-updater"

/-- A checksum entry of the repomd metadata (alas dependency). -/
structure Checksum where
  Sum : String
deriving DecidableEq, Repr

/-- One repo entry of the repomd metadata (alas dependency): its type tag
(e.g. "updateinfo") and checksum. -/
structure RepoSpec where
  RepoType : String
  Checksum : Checksum
deriving DecidableEq, Repr

/-- The repomd metadata document (alas dependency). -/
structure RepoMD where
  Data : List RepoSpec
deriving DecidableEq, Repr

/-- alas.UpdateInfo: the type tag of the updates repo. -/
def alasUpdateInfo : String := "updateinfo"

/-- RepoMD.Repo from the alas dependency: look up the repo entry with the
given type tag (the arch argument is passed as "" by the updater and does
not constrain the lookup). Fails (error in Go) when no entry matches. -/
def RepoMD.Repo (md : RepoMD) (t : String) (_arch : String) : Option RepoSpec :=
  md.Data.find? (fun r => r.RepoType == t)

/-- The error values Fetch can produce; `unchanged` mirrors driver.Unchanged
(src/libvuln/driver/updater.go line 48), the distinguished condition the
Fetcher contract reserves for "database contents unchanged". -/
inductive FetchError where
  | clientCreate (msg : String)
  | repoMD (msg : String)
  | updatesRepoMD (msg : String)
  | updates (msg : String)
  | unchanged
deriving DecidableEq, Repr

/-- The results the external world supplies to one Fetch/Configure cycle:
whether NewClient succeeds, what client.RepoMD returns, what client.Updates
returns, and what client.getMirrors resolves. -/
structure NetWorld where
  newClientOk : Bool
  repoMD : Except String RepoMD
  updates : Except String Content
  mirrorlist : Except String (List URL)
deriving Repr

/-- The triple returned by Fetch: (io.ReadCloser, driver.Fingerprint, error). -/
structure FetchOutcome where
  rc : Option Content
  fp : Fingerprint
  err : Option FetchError
deriving DecidableEq, Repr

/-- Updater.Fetch (src/aws/updater.go lines 49-81): use the configured client
or create a per-call one, retrieve the repomd metadata, look up the
"updateinfo" repo entry, download the updates resource, and return it with
the entry's checksum sum as the new fingerprint. Every error path returns
(nil, "", err). The prior fingerprint argument is accepted but never
consulted by the source. -/
def Updater.Fetch (u : Updater) (w : NetWorld) (fingerprint : Fingerprint) : FetchOutcome :=
  if u.client.isNone && !w.newClientOk then
    { rc := none, fp := "", err := some (.clientCreate "failed to create client") }
  else
    match w.repoMD with
    | .error e => { rc := none, fp := "", err := some (.repoMD e) }
    | .ok repoMD =>
      match repoMD.Repo alasUpdateInfo "" with
      | none =>
        { rc := none, fp := ""
          err := some (.updatesRepoMD "updates repo metadata could not be retrieved") }
      | some updatesRepoMD =>
        match w.updates with
        | .error e => { rc := none, fp := "", err := some (.updates e) }
        | .ok rc => { rc := some rc, fp := updatesRepoMD.Checksum.Sum, err := none }

/-! ## The advisory document (alas dependency) and Parse -/

/-- A reference of an advisory (alas.Ref): we keep the Href used by
refsToLinks. -/
structure Ref where
  Href : String
deriving DecidableEq, Repr

/-- An affected package of an advisory (alas.Package). -/
structure AlasPackage where
  Name : String
  Version : String
  Release : String
deriving DecidableEq, Repr

/-- The issued element of an advisory (alas.Issued): a date string. -/
structure Issued where
  Date : String
deriving DecidableEq, Repr

/-- One advisory entry (alas.Update). -/
structure Update where
  ID : String
  Issued : Issued
  Description : String
  Severity : String
  References : List Ref
  Packages : List AlasPackage
deriving DecidableEq, Repr

/-- The whole advisory document (alas.Updates). -/
structure Updates where
  Updates : List Update
deriving DecidableEq, Repr

/-- A wall-clock timestamp as produced by time.Parse with the
"2006-01-02 15:04" layout. -/
structure DateTime where
  year : Nat
  month : Nat
  day : Nat
  hour : Nat
  minute : Nat
deriving DecidableEq, Repr

instance : Inhabited DateTime := ⟨⟨1, 1, 1, 0, 0⟩⟩

def digitVal (ch : Char) : Nat := ch.toNat - 48

/-- Read two decimal digits. -/
def parse2 (c1 c2 : Char) : Option Nat :=
  if c1.isDigit && c2.isDigit then some (digitVal c1 * 10 + digitVal c2) else none

def isLeapYear (y : Nat) : Bool :=
  (y % 4 == 0 && y % 100 != 0) || (y % 400 == 0)

def daysIn (y m : Nat) : Nat :=
  if m == 2 then (if isLeapYear y then 29 else 28)
  else if m == 4 || m == 6 || m == 9 || m == 11 then 30
  else 31

/-- Models time.Parse with layout "2006-01-02 15:04" (Go stdlib): the string
must be exactly `YYYY-MM-DD HH:MM` with in-range month, day-of-month, hour
and minute; otherwise parsing fails. -/
def parseIssued (s : String) : Option DateTime :=
  match s.toList with
  | [y1, y2, y3, y4, s1, m1, m2, s2, d1, d2, s3, h1, h2, s4, n1, n2] =>
    if s1 == '-' && s2 == '-' && s3 == ' ' && s4 == ':' then
      match parse2 y1 y2, parse2 y3 y4, parse2 m1 m2, parse2 d1 d2, parse2 h1 h2, parse2 n1 n2 with
      | some yh, some yl, some mo, some da, some ho, some mi =>
        let y := yh * 100 + yl
        if 1 ≤ mo ∧ mo ≤ 12 ∧ 1 ≤ da ∧ da ≤ daysIn y mo ∧ ho ≤ 23 ∧ mi ≤ 59 then
          some ⟨y, mo, da, ho, mi⟩
        else none
      | _, _, _, _, _, _ => none
    else none
  | _ => none

/-- Modelled from the spec: the normalized severity scale (§3: "an enumerated
scale independent of source vocabulary"); the claircore.Severity enumeration
itself is not under src/. -/
inductive CCSeverity where
  | Unknown
  | Low
  | Medium
  | High
  | Critical
deriving DecidableEq, Repr

/-- ASCII lowercase of one character (models strings.ToLower for the ASCII
severity labels the feed uses). -/
def lowerChar (ch : Char) : Char :=
  if 65 ≤ ch.toNat ∧ ch.toNat ≤ 90 then Char.ofNat (ch.toNat + 32) else ch

/-- ASCII lowercase of a string. -/
def lowerString (s : String) : String := String.mk (s.toList.map lowerChar)

/-- Modelled from the spec: NormalizeSeverity (used at src/aws/updater.go
line 104 but declared elsewhere in the aws package, not under src/) derives
the normalized severity from the feed's raw severity label (§3, §4.3),
case-insensitively. -/
def NormalizeSeverity (severity : String) : CCSeverity :=
  match lowerString severity with
  | "low" => .Low
  | "medium" => .Medium
  | "important" => .High
  | "critical" => .Critical
  | _ => .Unknown

/-- The distribution tag attached to each record (claircore.Distribution,
reduced to the fields the updater determines). -/
structure Distribution where
  DID : String
  VersionID : String
deriving DecidableEq, Repr

/-- Modelled from the spec: releaseToDist (used at src/aws/updater.go line 89
but declared elsewhere in the aws package, not under src/) maps the
configured release to its distribution/platform tag (§4.3). -/
def releaseToDist (r : Release) : Distribution :=
  { DID := "amzn", VersionID := r }

/-- claircore.Package, reduced to the fields unpack sets. -/
structure CCPackage where
  Name : String
  Kind : String
deriving DecidableEq, Repr

/-- claircore.Vulnerability, reduced to the fields Parse/unpack populate; the
remaining fields keep their zero values throughout and are omitted. -/
structure Vulnerability where
  Updater : String
  Name : String
  Description : String
  Issued : DateTime
  Links : String
  Severity : String
  NormalizedSeverity : CCSeverity
  Dist : Distribution
  Package : Option CCPackage
  FixedInVersion : String
deriving DecidableEq, Repr

/-- refsToLinks (src/aws/updater.go lines 159-166): join all reference hrefs
with single spaces. -/
def refsToLinks (u : Update) : String :=
  String.intercalate " " (u.References.map (fun ref => ref.Href))

/-- Updater.unpack (src/aws/updater.go lines 140-156): copy the partially
populated vulnerability once per alas.Package, setting the package (name,
kind "binary") and the fixed-in version "version-release". -/
def Updater.unpack (_u : Updater) (base : Vulnerability) (packages : List AlasPackage) :
    List Vulnerability :=
  packages.map (fun alasPKG =>
    { base with
      Package := some { Name := alasPKG.Name, Kind := "binary" }
      FixedInVersion := alasPKG.Version ++ "-" ++ alasPKG.Release })

/-- The errors Parse can produce. -/
inductive ParseError where
  | xmlDecode (msg : String)
  | badDate (s : String)
deriving DecidableEq, Repr

/-- The partially populated vulnerability built for one advisory
(src/aws/updater.go lines 97-106). -/
def mkPartial (u : Updater) (dist : Distribution) (update : Update) (issued : DateTime) :
    Vulnerability :=
  { Updater := u.Name
    Name := update.ID
    Description := update.Description
    Issued := issued
    Links := refsToLinks update
    Severity := update.Severity
    NormalizedSeverity := NormalizeSeverity update.Severity
    Dist := dist
    Package := none
    FixedInVersion := "" }

/-- The loop of Parse (src/aws/updater.go lines 92-108): on the first
advisory whose issued date fails to parse, stop and return the
vulnerabilities accumulated so far together with the error. -/
def parseLoop (u : Updater) (dist : Distribution) : List Update → List Vulnerability × Option ParseError
  | [] => ([], none)
  | update :: rest =>
    match parseIssued update.Issued.Date with
    | none => ([], some (.badDate update.Issued.Date))
    | some issued =>
      let here := u.unpack (mkPartial u dist update issued) update.Packages
      let (more, e) := parseLoop u dist rest
      (here ++ more, e)

/-- Updater.Parse (src/aws/updater.go lines 83-111): decode the XML document
(none models a decode failure), then build records advisory by advisory. -/
def Updater.Parse (u : Updater) (contents : Option Updates) :
    List Vulnerability × Option ParseError :=
  match contents with
  | none => ([], some (.xmlDecode "failed to unmarshal updates xml"))
  | some updates => parseLoop u (releaseToDist u.release) updates.Updates

/-! ## Configure -/

/-- driver.ConfigUnmarshaler applied to the updater: in Go it decodes stored
configuration into the adapter's exported fields, i.e. Timeout and Mirrors
(the release and client fields are unexported and unreachable from it); a
failure is an error. The result models the (Timeout, Mirrors) pair after
decoding. -/
abbrev ConfigUnmarshaler := Updater → Except String (Nat × List String)

/-- The errors Configure can produce. -/
inductive ConfigureError where
  | unmarshal (msg : String)
  | badMirror (m : String)
  | mirrorlist (msg : String)
deriving DecidableEq, Repr

/-- The mirror-parsing loop of Configure (src/aws/updater.go lines 120-126):
parse every configured mirror, stopping at the first failure. -/
def parseMirrors : List String → Except String (List URL)
  | [] => .ok []
  | m :: rest =>
    match urlParse m with
    | none => .error m
    | some mu =>
      match parseMirrors rest with
      | .error e => .error e
      | .ok mus => .ok (mu :: mus)

/-- Updater.Configure (src/aws/updater.go lines 114-136): apply the
ConfigUnmarshaler, bind the supplied HTTP client, parse any explicit
mirrors, and only when none were configured resolve the mirror list from the
upstream directory (client.getMirrors, supplied by the world). -/
def Updater.Configure (u : Updater) (f : ConfigUnmarshaler) (c : HttpClient) (w : NetWorld) :
    Except ConfigureError Updater :=
  match f u with
  | .error e => .error (.unmarshal e)
  | .ok (t, ms) =>
    let u1 : Updater := { u with Timeout := t, Mirrors := ms }
    match parseMirrors u1.Mirrors with
    | .error m => .error (.badMirror m)
    | .ok mus =>
      if mus.isEmpty then
        match w.mirrorlist with
        | .error e => .error (.mirrorlist e)
        | .ok gms => .ok { u1 with client := some { c := some c, mirrors := gms } }
      else
        .ok { u1 with client := some { c := some c, mirrors := mus } }

/-! ## The distributed lock contract -/

/-- Modelled from the spec: src/pkg/distlock/locker.go declares only the
Locker interface, with no implementation under src/. Following §4.2 ("
Acquisition must be atomic"), the cross-process lock state is a map from key
to the handle currently holding it, and each Lock/TryLock/Unlock call is one
atomic step on that state. -/
structure LockState where
  held : String → Option Nat

/-- Modelled from the spec: TryLock (§4.2) — non-blocking; returns false
without touching the state when the key is held, otherwise records the grant
and returns true. -/
def LockState.tryLock (s : LockState) (h : Nat) (k : String) : Bool × LockState :=
  match s.held k with
  | some _ => (false, s)
  | none => (true, ⟨fun k2 => if k2 = k then some h else s.held k2⟩)

/-- Modelled from the spec: Lock (§4.2) — blocks until the key is free; the
grant event exists (some) exactly when the key is currently free, and a
holder keeps every other caller blocked (none = no grant event can occur in
this state). -/
def LockState.lock (s : LockState) (h : Nat) (k : String) : Option LockState :=
  match s.held k with
  | some _ => none
  | none => some ⟨fun k2 => if k2 = k then some h else s.held k2⟩

/-- Modelled from the spec: Unlock (§4.2) — release the single outstanding
grant for the key. -/
def LockState.unlock (s : LockState) (k : String) : LockState :=
  ⟨fun k2 => if k2 = k then none else s.held k2⟩

/-! ## Theorems about Fetch -/

/-- Every run of Fetch either fails with a non-Unchanged error and the empty
content/fingerprint, or succeeds returning the downloaded content with the
updateinfo entry's checksum sum as fingerprint. -/
theorem fetch_shape (u : Updater) (w : NetWorld) (fp : Fingerprint) :
    ((u.Fetch w fp).rc = none ∧ (u.Fetch w fp).fp = "" ∧ (u.Fetch w fp).err ≠ none
      ∧ (u.Fetch w fp).err ≠ some FetchError.unchanged)
    ∨ (∃ md r rc, w.repoMD = Except.ok md ∧ md.Repo alasUpdateInfo "" = some r
        ∧ w.updates = Except.ok rc
        ∧ u.Fetch w fp = { rc := some rc, fp := r.Checksum.Sum, err := none }) := by
  unfold Updater.Fetch
  split
  · left; simp
  · cases hmd : w.repoMD with
    | error e => left; simp
    | ok md =>
      cases hr : md.Repo alasUpdateInfo "" with
      | none => left; simp [hr]
      | some r =>
        cases hup : w.updates with
        | error e => left; simp [hr]
        | ok rc => right; refine ⟨md, r, rc, rfl, hr, rfl, ?_⟩; simp [hr]

/-- C1: the claim says that when the upstream updates resource's checksum
equals the prior Fingerprint, Fetch returns the distinguished Unchanged
condition and returns content only when the checksum differs. The code never
consults the prior fingerprint: at prior fingerprint "abc" with upstream
updateinfo checksum also "abc", Fetch returns the downloaded content with
fingerprint "abc" and no error — not the Unchanged error the driver.Fetcher
contract requires for unchanged content. -/
theorem C1_fetch_ignores_prior_fingerprint :
    Updater.Fetch { release := "2", Timeout := 15, Mirrors := [], client := none }
      { newClientOk := true
        repoMD := Except.ok { Data := [{ RepoType := "updateinfo", Checksum := { Sum := "abc" } }] }
        updates := Except.ok "updates-xml"
        mirrorlist := Except.ok [] }
      "abc"
    = { rc := some "updates-xml", fp := "abc", err := none } := by
  rfl

/-- C2: for an upstream state whose updateinfo checksum differs from the
prior Fingerprint, Fetch never returns the Unchanged condition, and a
successful Fetch returns exactly the upstream checksum as the new
Fingerprint, hence a fingerprint different from the prior one. -/
theorem C2_changed_checksum_returns_new_fingerprint (u : Updater) (w : NetWorld)
    (fp : Fingerprint) (md : RepoMD) (r : RepoSpec)
    (hmd : w.repoMD = Except.ok md)
    (hr : md.Repo alasUpdateInfo "" = some r)
    (hdiff : r.Checksum.Sum ≠ fp) :
    (u.Fetch w fp).err ≠ some FetchError.unchanged
    ∧ ((u.Fetch w fp).err = none →
        (u.Fetch w fp).fp = r.Checksum.Sum ∧ (u.Fetch w fp).fp ≠ fp) := by
  rcases fetch_shape u w fp with ⟨_, _, hne, hnu⟩ | ⟨md2, r2, rc2, hmd2, hr2, hup2, heq⟩
  · exact ⟨hnu, fun h => absurd h hne⟩
  · have hmd12 : md2 = md := by rw [hmd] at hmd2; exact (Except.ok.inj hmd2).symm
    subst hmd12
    have hr12 : r2 = r := by rw [hr] at hr2; exact (Option.some.inj hr2).symm
    subst hr12
    rw [heq]
    exact ⟨by simp, fun _ => ⟨rfl, hdiff⟩⟩

/-- Witness for C2 at a concrete input: prior fingerprint "abc", upstream
checksum "def". -/
theorem C2_changed_checksum_returns_new_fingerprint_witness :
    (Updater.Fetch { release := "2", Timeout := 15, Mirrors := [], client := none }
      { newClientOk := true
        repoMD := Except.ok { Data := [{ RepoType := "updateinfo", Checksum := { Sum := "def" } }] }
        updates := Except.ok "updates-xml"
        mirrorlist := Except.ok [] }
      "abc").fp = "def"
    ∧ (Updater.Fetch { release := "2", Timeout := 15, Mirrors := [], client := none }
      { newClientOk := true
        repoMD := Except.ok { Data := [{ RepoType := "updateinfo", Checksum := { Sum := "def" } }] }
        updates := Except.ok "updates-xml"
        mirrorlist := Except.ok [] }
      "abc").fp ≠ "abc" :=
  (C2_changed_checksum_returns_new_fingerprint
    { release := "2", Timeout := 15, Mirrors := [], client := none }
    { newClientOk := true
      repoMD := Except.ok { Data := [{ RepoType := "updateinfo", Checksum := { Sum := "def" } }] }
      updates := Except.ok "updates-xml"
      mirrorlist := Except.ok [] }
    "abc"
    { Data := [{ RepoType := "updateinfo", Checksum := { Sum := "def" } }] }
    { RepoType := "updateinfo", Checksum := { Sum := "def" } }
    rfl rfl (by decide)).2 rfl

/-- C9: whenever Fetch returns an error, it returns no content stream and
the empty Fingerprint, so a caller persisting only on success can never
store a partial new fingerprint from a failed Fetch. -/
theorem C9_fetch_error_empty_results (u : Updater) (w : NetWorld) (fp : Fingerprint)
    (h : (u.Fetch w fp).err ≠ none) :
    (u.Fetch w fp).rc = none ∧ (u.Fetch w fp).fp = "" := by
  rcases fetch_shape u w fp with ⟨h1, h2, _, _⟩ | ⟨_, _, _, _, _, _, heq⟩
  · exact ⟨h1, h2⟩
  · rw [heq] at h; simp at h

/-- Witness for C9 at a concrete input: client creation fails. -/
theorem C9_fetch_error_empty_results_witness :
    (Updater.Fetch { release := "2", Timeout := 15, Mirrors := [], client := none }
      { newClientOk := false
        repoMD := Except.ok { Data := [] }
        updates := Except.ok "updates-xml"
        mirrorlist := Except.ok [] }
      "abc").rc = none
    ∧ (Updater.Fetch { release := "2", Timeout := 15, Mirrors := [], client := none }
      { newClientOk := false
        repoMD := Except.ok { Data := [] }
        updates := Except.ok "updates-xml"
        mirrorlist := Except.ok [] }
      "abc").fp = "" :=
  C9_fetch_error_empty_results _ _ "abc" (by decide)

/-- C10: NewUpdater never fails: it returns (for every release) the updater
with the 15-second default timeout, no explicit mirrors and no bound client,
together with a nil error; and with no bound client, Fetch falls back to
creating a per-call client (so it fails exactly when NewClient does). -/
theorem C10_new_updater_defaults (r : Release) (w : NetWorld) (fp : Fingerprint) :
    NewUpdater r = Except.ok { release := r, Timeout := defaultOpTimeout, Mirrors := [], client := none }
    ∧ defaultOpTimeout = 15
    ∧ (w.newClientOk = false →
        (Updater.Fetch { release := r, Timeout := defaultOpTimeout, Mirrors := [], client := none } w fp).err
          = some (FetchError.clientCreate "failed to create client")) := by
  refine ⟨rfl, rfl, fun h => ?_⟩
  unfold Updater.Fetch
  simp [h]

/-- Witness for C10 at a concrete input. -/
theorem C10_new_updater_defaults_witness :
    NewUpdater "2" = Except.ok { release := "2", Timeout := defaultOpTimeout, Mirrors := [], client := none }
    ∧ (Updater.Fetch { release := "2", Timeout := defaultOpTimeout, Mirrors := [], client := none }
        { newClientOk := false
          repoMD := Except.ok { Data := [] }
          updates := Except.ok "updates-xml"
          mirrorlist := Except.ok [] }
        "").err = some (FetchError.clientCreate "failed to create client") :=
  ⟨(C10_new_updater_defaults "2"
      { newClientOk := false
        repoMD := Except.ok { Data := [] }
        updates := Except.ok "updates-xml"
        mirrorlist := Except.ok [] } "").1,
   (C10_new_updater_defaults "2"
      { newClientOk := false
        repoMD := Except.ok { Data := [] }
        updates := Except.ok "updates-xml"
        mirrorlist := Except.ok [] } "").2.2 rfl⟩

/-! ## Theorems about Parse -/

/-- The fully populated record Parse builds for advisory `upd` and affected
package `p`: the advisory-level fields (identifier, description, issue date,
severity, normalized severity, distribution, joined reference links) depend
only on the updater and the advisory, while the package-level fields (name,
kind, fixed-in version) depend on the package. -/
def recordOf (u : Updater) (upd : Update) (p : AlasPackage) : Vulnerability :=
  { Updater := u.Name
    Name := upd.ID
    Description := upd.Description
    Issued := (parseIssued upd.Issued.Date).getD default
    Links := refsToLinks upd
    Severity := upd.Severity
    NormalizedSeverity := NormalizeSeverity upd.Severity
    Dist := releaseToDist u.release
    Package := some { Name := p.Name, Kind := "binary" }
    FixedInVersion := p.Version ++ "-" ++ p.Release }

/-- On a list of advisories whose issue dates all parse, the Parse loop
succeeds and yields, advisory by advisory, one record per affected
package. -/
theorem parseLoop_ok (u : Updater) (us : List Update)
    (h : ∀ upd ∈ us, (parseIssued upd.Issued.Date).isSome) :
    parseLoop u (releaseToDist u.release) us
      = (us.flatMap (fun upd => upd.Packages.map (recordOf u upd)), none) := by
  induction us with
  | nil => simp [parseLoop]
  | cons upd rest ih =>
    obtain ⟨i, hi⟩ := Option.isSome_iff_exists.mp (h upd (by simp))
    have hrec := ih (fun x hx => h x (by simp [hx]))
    simp [parseLoop, hi, hrec, Updater.unpack, mkPartial, recordOf]

/-- On a list of advisories whose first bad issue date sits after `pre`, the
Parse loop returns exactly the records of the advisories in `pre` together
with the date error. -/
theorem parseLoop_err (u : Updater) (pre : List Update) (bad : Update) (post : List Update)
    (hpre : ∀ upd ∈ pre, (parseIssued upd.Issued.Date).isSome)
    (hbad : parseIssued bad.Issued.Date = none) :
    parseLoop u (releaseToDist u.release) (pre ++ bad :: post)
      = (pre.flatMap (fun upd => upd.Packages.map (recordOf u upd)),
         some (ParseError.badDate bad.Issued.Date)) := by
  induction pre with
  | nil => simp [parseLoop, hbad]
  | cons upd rest ih =>
    obtain ⟨i, hi⟩ := Option.isSome_iff_exists.mp (hpre upd (by simp))
    have hrec := ih (fun x hx => hpre x (by simp [hx]))
    simp [parseLoop, hi, hrec, Updater.unpack, mkPartial, recordOf]

/-- C3: for a well-formed document (every advisory's issue date parses),
Parse succeeds, and produces for each advisory one record per affected
package — so exactly N records for an advisory with N packages — where all
of an advisory's records share the advisory-level fields and each carries
its package's name, the kind "binary", and the fixed-in version
"version-release". -/
theorem C3_parse_one_record_per_package (u : Updater) (doc : Updates)
    (h : ∀ upd ∈ doc.Updates, (parseIssued upd.Issued.Date).isSome) :
    (u.Parse (some doc)).2 = none
    ∧ (u.Parse (some doc)).1
        = doc.Updates.flatMap (fun upd => upd.Packages.map (recordOf u upd))
    ∧ ∀ upd ∈ doc.Updates,
        (upd.Packages.map (recordOf u upd)).length = upd.Packages.length := by
  have hp : u.Parse (some doc) = parseLoop u (releaseToDist u.release) doc.Updates := rfl
  rw [hp, parseLoop_ok u doc.Updates h]
  exact ⟨rfl, rfl, fun upd _ => by simp⟩

/-- Witness for C3: one advisory with two affected packages yields two
records sharing the identifier and with distinct fixed-in versions. -/
theorem C3_parse_one_record_per_package_witness :
    (Updater.Parse { release := "2", Timeout := 15, Mirrors := [], client := none }
      (some { Updates := [
        { ID := "ALAS-2019-1234"
          Issued := { Date := "2019-06-13 10:00" }
          Description := "openssl issue"
          Severity := "important"
          References := [{ Href := "https://alas.aws.amazon.com/ALAS-2019-1234.html" }]
          Packages := [
            { Name := "openssl", Version := "1.0.2k", Release := "16.amzn2.1.1" },
            { Name := "openssl-devel", Version := "1.0.2k", Release := "16.amzn2.1.1" }] }] })).2
      = none
    ∧ ((Updater.Parse { release := "2", Timeout := 15, Mirrors := [], client := none }
      (some { Updates := [
        { ID := "ALAS-2019-1234"
          Issued := { Date := "2019-06-13 10:00" }
          Description := "openssl issue"
          Severity := "important"
          References := [{ Href := "https://alas.aws.amazon.com/ALAS-2019-1234.html" }]
          Packages := [
            { Name := "openssl", Version := "1.0.2k", Release := "16.amzn2.1.1" },
            { Name := "openssl-devel", Version := "1.0.2k", Release := "16.amzn2.1.1" }] }] })).1).length
      = 2 := by
  have h := C3_parse_one_record_per_package
    { release := "2", Timeout := 15, Mirrors := [], client := none }
    { Updates := [
        { ID := "ALAS-2019-1234"
          Issued := { Date := "2019-06-13 10:00" }
          Description := "openssl issue"
          Severity := "important"
          References := [{ Href := "https://alas.aws.amazon.com/ALAS-2019-1234.html" }]
          Packages := [
            { Name := "openssl", Version := "1.0.2k", Release := "16.amzn2.1.1" },
            { Name := "openssl-devel", Version := "1.0.2k", Release := "16.amzn2.1.1" }] }] }
    (by decide)
  refine ⟨h.1, ?_⟩
  rw [h.2.1]
  simp

/-- C4: when some advisory's issue date fails to parse (while the earlier
advisories' dates parse), Parse stops at that advisory and returns exactly
the records already built from the earlier advisories together with a
non-nil error. -/
theorem C4_parse_stops_at_bad_date (u : Updater) (pre : List Update) (bad : Update)
    (post : List Update)
    (hpre : ∀ upd ∈ pre, (parseIssued upd.Issued.Date).isSome)
    (hbad : parseIssued bad.Issued.Date = none) :
    u.Parse (some { Updates := pre ++ bad :: post })
      = (pre.flatMap (fun upd => upd.Packages.map (recordOf u upd)),
         some (ParseError.badDate bad.Issued.Date)) := by
  have hp : u.Parse (some { Updates := pre ++ bad :: post })
      = parseLoop u (releaseToDist u.release) (pre ++ bad :: post) := rfl
  rw [hp, parseLoop_err u pre bad post hpre hbad]

/-- Witness for C4: the second of three advisories has an unparsable issue
date; the result is exactly the first advisory's per-package records plus
the error. -/
theorem C4_parse_stops_at_bad_date_witness :
    Updater.Parse { release := "2", Timeout := 15, Mirrors := [], client := none }
      (some { Updates := [
        { ID := "ALAS-2019-1111"
          Issued := { Date := "2019-06-13 10:00" }
          Description := "first"
          Severity := "low"
          References := []
          Packages := [
            { Name := "vim", Version := "8.1", Release := "1.amzn2" },
            { Name := "vim-common", Version := "8.1", Release := "1.amzn2" }] },
        { ID := "ALAS-2019-2222"
          Issued := { Date := "bogus-date" }
          Description := "second"
          Severity := "medium"
          References := []
          Packages := [{ Name := "curl", Version := "7.61", Release := "1.amzn2" }] },
        { ID := "ALAS-2019-3333"
          Issued := { Date := "2019-07-01 09:30" }
          Description := "third"
          Severity := "critical"
          References := []
          Packages := [{ Name := "bash", Version := "4.2", Release := "2.amzn2" }] }] })
    = ([{ Name := "vim", Version := "8.1", Release := "1.amzn2" },
        { Name := "vim-common", Version := "8.1", Release := "1.amzn2" }].map
          (recordOf { release := "2", Timeout := 15, Mirrors := [], client := none }
            { ID := "ALAS-2019-1111"
              Issued := { Date := "2019-06-13 10:00" }
              Description := "first"
              Severity := "low"
              References := []
              Packages := [
                { Name := "vim", Version := "8.1", Release := "1.amzn2" },
                { Name := "vim-common", Version := "8.1", Release := "1.amzn2" }] }),
       some (ParseError.badDate "bogus-date")) := by
  have h := C4_parse_stops_at_bad_date
    { release := "2", Timeout := 15, Mirrors := [], client := none }
    [{ ID := "ALAS-2019-1111"
       Issued := { Date := "2019-06-13 10:00" }
       Description := "first"
       Severity := "low"
       References := []
       Packages := [
         { Name := "vim", Version := "8.1", Release := "1.amzn2" },
         { Name := "vim-common", Version := "8.1", Release := "1.amzn2" }] }]
    { ID := "ALAS-2019-2222"
      Issued := { Date := "bogus-date" }
      Description := "second"
      Severity := "medium"
      References := []
      Packages := [{ Name := "curl", Version := "7.61", Release := "1.amzn2" }] }
    [{ ID := "ALAS-2019-3333"
       Issued := { Date := "2019-07-01 09:30" }
       Description := "third"
       Severity := "critical"
       References := []
       Packages := [{ Name := "bash", Version := "4.2", Release := "2.amzn2" }] }]
    (by decide) (by decide)
  simpa using h

/-- Every record the Parse loop emits carries a package of kind "binary". -/
theorem parseLoop_package_binary (u : Updater) (dist : Distribution) (us : List Update)
    (v : Vulnerability) (hv : v ∈ (parseLoop u dist us).1) :
    ∃ p, v.Package = some p ∧ p.Kind = "binary" := by
  induction us with
  | nil => simp [parseLoop] at hv
  | cons upd rest ih =>
    cases hi : parseIssued upd.Issued.Date with
    | none => simp [parseLoop, hi] at hv
    | some i =>
      simp only [parseLoop, hi] at hv
      rcases List.mem_append.mp hv with hin | hin
      · obtain ⟨pkg, _, hpkg⟩ := List.mem_map.mp hin
        exact ⟨{ Name := pkg.Name, Kind := "binary" }, by rw [← hpkg], rfl⟩
      · exact ih hin

/-- C8: every VulnerabilityRecord produced by Parse has its affected-package
kind equal to "binary", for every input document and every package. -/
theorem C8_parse_package_kind_binary (u : Updater) (contents : Option Updates)
    (v : Vulnerability) (hv : v ∈ (u.Parse contents).1) :
    ∃ p, v.Package = some p ∧ p.Kind = "binary" := by
  cases contents with
  | none => simp [Updater.Parse] at hv
  | some doc => exact parseLoop_package_binary u (releaseToDist u.release) doc.Updates v hv

/-- Witness for C8 at a concrete document and record. -/
theorem C8_parse_package_kind_binary_witness :
    ∃ p, (recordOf { release := "2", Timeout := 15, Mirrors := [], client := none }
        { ID := "ALAS-2019-1234"
          Issued := { Date := "2019-06-13 10:00" }
          Description := "d"
          Severity := "important"
          References := []
          Packages := [{ Name := "openssl", Version := "1.0", Release := "3.amzn2" }] }
        { Name := "openssl", Version := "1.0", Release := "3.amzn2" }).Package = some p
      ∧ p.Kind = "binary" :=
  C8_parse_package_kind_binary
    { release := "2", Timeout := 15, Mirrors := [], client := none }
    (some { Updates := [
      { ID := "ALAS-2019-1234"
        Issued := { Date := "2019-06-13 10:00" }
        Description := "d"
        Severity := "important"
        References := []
        Packages := [{ Name := "openssl", Version := "1.0", Release := "3.amzn2" }] }] })
    (recordOf { release := "2", Timeout := 15, Mirrors := [], client := none }
      { ID := "ALAS-2019-1234"
        Issued := { Date := "2019-06-13 10:00" }
        Description := "d"
        Severity := "important"
        References := []
        Packages := [{ Name := "openssl", Version := "1.0", Release := "3.amzn2" }] }
      { Name := "openssl", Version := "1.0", Release := "3.amzn2" })
    (by decide)

/-! ## Theorems about Configure and Name -/

/-- When every configured mirror parses, the mirror loop returns exactly the
parsed mirrors, in order. -/
theorem parseMirrors_ok (ms : List String) (h : ∀ m ∈ ms, (urlParse m).isSome) :
    parseMirrors ms = Except.ok (ms.filterMap urlParse) := by
  induction ms with
  | nil => simp [parseMirrors]
  | cons m rest ih =>
    obtain ⟨mu, hmu⟩ := Option.isSome_iff_exists.mp (h m (by simp))
    have hrec := ih (fun x hx => h x (by simp [hx]))
    simp [parseMirrors, hmu, hrec]

/-- When some configured mirror fails to parse, the mirror loop fails. -/
theorem parseMirrors_err (ms : List String) (m : String) (hm : m ∈ ms)
    (hbad : urlParse m = none) : ∃ e, parseMirrors ms = Except.error e := by
  induction ms with
  | nil => cases hm
  | cons a rest ih =>
    cases hma : urlParse a with
    | none => exact ⟨a, by simp [parseMirrors, hma]⟩
    | some mu =>
      rcases List.mem_cons.mp hm with rfl | hm2
      · rw [hma] at hbad; cases hbad
      · obtain ⟨e, he⟩ := ih hm2
        exact ⟨e, by simp [parseMirrors, hma, he]⟩

/-- C6: Configure applies the ConfigUnmarshaler and binds the supplied HTTP
client; a non-empty explicit mirror list whose entries all parse is used
exactly as given, independently of the upstream directory; the upstream
mirror list is consulted only when no explicit mirrors were supplied; a
failing ConfigUnmarshaler or an unparsable mirror entry yields an error. -/
theorem C6_configure (u : Updater) (f : ConfigUnmarshaler) (c : HttpClient)
    (w w' : NetWorld) (e : String) (t : Nat) (ms : List String) :
    (f u = Except.error e → u.Configure f c w = Except.error (ConfigureError.unmarshal e))
    ∧ (f u = Except.ok (t, ms) → ms ≠ [] → (∀ m ∈ ms, (urlParse m).isSome) →
        u.Configure f c w = u.Configure f c w'
        ∧ u.Configure f c w
            = Except.ok { u with
                Timeout := t
                Mirrors := ms
                client := some { c := some c, mirrors := ms.filterMap urlParse } })
    ∧ (f u = Except.ok (t, []) → ∀ gms, w.mirrorlist = Except.ok gms →
        u.Configure f c w
          = Except.ok { u with
              Timeout := t
              Mirrors := []
              client := some { c := some c, mirrors := gms } })
    ∧ (f u = Except.ok (t, ms) → (∃ m ∈ ms, urlParse m = none) →
        ∃ e2, u.Configure f c w = Except.error e2) := by
  refine ⟨fun hf => ?_, fun hf hne hall => ?_, fun hf gms hgm => ?_, fun hf hbad => ?_⟩
  · unfold Updater.Configure
    rw [hf]
  · have hpm := parseMirrors_ok ms hall
    have hemp : (ms.filterMap urlParse).isEmpty = false := by
      cases ms with
      | nil => exact absurd rfl hne
      | cons m rest =>
        obtain ⟨mu, hmu⟩ := Option.isSome_iff_exists.mp (hall m (by simp))
        simp [hmu]
    constructor
    · unfold Updater.Configure
      rw [hf]
      simp only [hpm, hemp]
      rfl
    · unfold Updater.Configure
      rw [hf]
      simp only [hpm, hemp]
      rfl
  · unfold Updater.Configure
    rw [hf]
    simp only [parseMirrors]
    simp [hgm]
  · obtain ⟨m, hm, hmb⟩ := hbad
    obtain ⟨e2, he2⟩ := parseMirrors_err ms m hm hmb
    exact ⟨ConfigureError.badMirror e2, by simp [Updater.Configure, hf, he2]⟩

/-- Witness for C6: an explicit one-mirror configuration is used verbatim,
for two different upstream worlds. -/
theorem C6_configure_witness :
    Updater.Configure { release := "2", Timeout := 15, Mirrors := [], client := none }
      (fun _ => Except.ok (20, ["https://mirror.example/awsalas"])) { id := 1 }
      { newClientOk := true
        repoMD := Except.ok { Data := [] }
        updates := Except.ok ""
        mirrorlist := Except.ok [{ raw := "https://upstream.example" }] }
    = Except.ok { release := "2", Timeout := 20, Mirrors := ["https://mirror.example/awsalas"], client := some { c := some { id := 1 }, mirrors := ["https://mirror.example/awsalas"].filterMap urlParse } } :=
  ((C6_configure { release := "2", Timeout := 15, Mirrors := [], client := none }
      (fun _ => Except.ok (20, ["https://mirror.example/awsalas"])) { id := 1 }
      { newClientOk := true
        repoMD := Except.ok { Data := [] }
        updates := Except.ok ""
        mirrorlist := Except.ok [{ raw := "https://upstream.example" }] }
      { newClientOk := true
        repoMD := Except.ok { Data := [] }
        updates := Except.ok ""
        mirrorlist := Except.error "unreachable" }
      "" 20 ["https://mirror.example/awsalas"]).2.1
    rfl (by decide) (by decide)).2

/-- Every successful Configure leaves the release selector unchanged. -/
theorem configure_release_eq (u u' : Updater) (f : ConfigUnmarshaler) (c : HttpClient)
    (w : NetWorld) (h : u.Configure f c w = Except.ok u') : u'.release = u.release := by
  unfold Updater.Configure at h
  cases hf : f u with
  | error e => rw [hf] at h; cases h
  | ok p =>
    rw [hf] at h
    cases hpm : parseMirrors p.2 with
    | error m => simp only [hpm] at h; cases h
    | ok mus =>
      simp only [hpm] at h
      by_cases hemp : mus.isEmpty = true
      · simp only [hemp, if_true] at h
        cases hgm : w.mirrorlist with
        | error e2 => rw [hgm] at h; cases h
        | ok gms =>
          rw [hgm] at h
          cases h
          rfl
      · simp only [hemp, if_false] at h
        cases h
        rfl

/-- C7: Name is pure: it is exactly "aws-" ++ release ++ "-updater",
determined solely by the release selector, and Configure (the only operation
that rebuilds the updater value; Fetch and Parse take the updater read-only
and mutate nothing) leaves it unchanged. -/
theorem C7_name_pure (u u2 u' : Updater) (f : ConfigUnmarshaler) (c : HttpClient)
    (w : NetWorld) :
    u.Name = "aws-" ++ u.release ++ "-updater"
    ∧ (u2.release = u.release → u2.Name = u.Name)
    ∧ (u.Configure f c w = Except.ok u' → u'.Name = u.Name) :=
  ⟨rfl,
   fun h => by simp [Updater.Name, h],
   fun h => by simp [Updater.Name, configure_release_eq u u' f c w h]⟩

/-- Witness for C7: the name survives a concrete successful Configure. -/
theorem C7_name_pure_witness :
    Updater.Name { release := "2", Timeout := 20, Mirrors := ["https://mirror.example"], client := some { c := some { id := 1 }, mirrors := ["https://mirror.example"].filterMap urlParse } }
      = Updater.Name { release := "2", Timeout := 15, Mirrors := [], client := none }
    ∧ Updater.Name { release := "2", Timeout := 15, Mirrors := [], client := none }
      = "aws-2-updater" :=
  ⟨(C7_name_pure { release := "2", Timeout := 15, Mirrors := [], client := none }
      { release := "2", Timeout := 15, Mirrors := [], client := none }
      { release := "2", Timeout := 20, Mirrors := ["https://mirror.example"], client := some { c := some { id := 1 }, mirrors := ["https://mirror.example"].filterMap urlParse } }
      (fun _ => Except.ok (20, ["https://mirror.example"])) { id := 1 }
      { newClientOk := true
        repoMD := Except.ok { Data := [] }
        updates := Except.ok ""
        mirrorlist := Except.ok [] }).2.2 (by rfl),
   (C7_name_pure { release := "2", Timeout := 15, Mirrors := [], client := none }
      { release := "2", Timeout := 15, Mirrors := [], client := none }
      { release := "2", Timeout := 15, Mirrors := [], client := none }
      (fun _ => Except.ok (15, [])) { id := 1 }
      { newClientOk := true
        repoMD := Except.ok { Data := [] }
        updates := Except.ok ""
        mirrorlist := Except.ok [] }).1⟩

/-! ## Theorems about the distributed lock -/

/-- C5: while one handle holds an unreleased grant for a key, no other
Lock/TryLock acquisition on that key can report success (in particular two
interleaved TryLocks cannot both succeed); and after Unlock on the key a
subsequent Lock or TryLock succeeds. -/
theorem C5_mutual_exclusion (s : LockState) (h1 h2 h3 : Nat) (k : String) :
    (s.held k = some h1 → (s.tryLock h2 k).1 = false ∧ s.lock h2 k = none)
    ∧ ((s.tryLock h1 k).1 = true → ((s.tryLock h1 k).2.tryLock h2 k).1 = false)
    ∧ ((s.unlock k).tryLock h3 k).1 = true
    ∧ ((s.unlock k).lock h3 k).isSome = true := by
  unfold LockState.tryLock LockState.lock LockState.unlock
  cases hk : s.held k <;> simp [hk]

/-- Witness for C5: handle 0 holds "feed", so handle 1 cannot acquire it;
after unlocking "feed", handle 2 acquires it. -/
theorem C5_mutual_exclusion_witness :
    ((⟨fun k2 => if k2 = "feed" then some 0 else none⟩ : LockState).tryLock 1 "feed").1 = false
    ∧ (((⟨fun k2 => if k2 = "feed" then some 0 else none⟩ : LockState).unlock "feed").tryLock 2 "feed").1
        = true :=
  ⟨((C5_mutual_exclusion ⟨fun k2 => if k2 = "feed" then some 0 else none⟩ 0 1 2 "feed").1
      (by simp)).1,
   (C5_mutual_exclusion ⟨fun k2 => if k2 = "feed" then some 0 else none⟩ 0 1 2 "feed").2.2.1⟩

end Claircore
